import Mathlib

/-!
# Verification of the robot arm animation / command-execution engine

Shallow embedding of `frontend/js/robot-visualizer.js` (class `RobotVisualizer`).

Modelling conventions:
* JS numbers are idealized as exact rationals (`ℚ`).  A JS value that may be
  `undefined` or `NaN` is modelled as `JSNum := Option ℚ`, with `none` standing
  for undefined/NaN; JS arithmetic propagates `none` and every comparison
  against `none` is `false`, exactly as `undefined`/`NaN` behave in the
  engine's arithmetic and `<` checks.
* The source compares `Math.sqrt(d2) < 2`; for nonnegative rationals this is
  equivalent to `d2 < 4`, and for NaN both sides of the equivalence are false,
  so we embed the convergence check as `d2 < 4`.
* `requestAnimationFrame` is modelled as a tick every `framePeriod = 16`
  time units (60 fps); `setTimeout(f, d)` pushes a pending timer `(now + d, f)`
  and the single-threaded event loop (`step`) always runs the earliest due
  event, timers before the next tick when due.
* DOM calls (`draw`, `updateDisplay`, `updateControls`, `markCommandActive`,
  console logging, the completion notification) have no effect on engine state
  and are omitted; `executionStartTime` (a `Date.now()` telemetry field) is
  likewise omitted since no engine logic reads it.
-/

namespace RobotViz

/-- A JS numeric value: `some q` is an ordinary number, `none` is
`undefined`/`NaN` (both propagate through arithmetic and fail comparisons). -/
abbrev JSNum := Option ℚ

/-- JS addition: NaN/undefined propagates. -/
def jadd : JSNum → JSNum → JSNum
  | some a, some b => some (a + b)
  | _, _ => none

/-- JS subtraction: NaN/undefined propagates. -/
def jsub : JSNum → JSNum → JSNum
  | some a, some b => some (a - b)
  | _, _ => none

/-- JS multiplication: NaN/undefined propagates. -/
def jmul : JSNum → JSNum → JSNum
  | some a, some b => some (a * b)
  | _, _ => none

/-- JS `<` comparison: any comparison involving NaN is false. -/
def jlt : JSNum → JSNum → Bool
  | some a, some b => a < b
  | _, _ => false

/-- JS `||` with a numeric default, as in `command.speed || 50`:
`0`, `NaN` and `undefined` are falsy. -/
def jsOrDefault (v : JSNum) (d : ℚ) : ℚ :=
  match v with
  | some q => if q = 0 then d else q
  | none => d

/-- An `{x, y, z}` triple of JS numbers. -/
structure Vec3 where
  x : JSNum
  y : JSNum
  z : JSNum
deriving DecidableEq

/-- The origin pose `{x: 0, y: 0, z: 0}`. -/
def Vec3.zero : Vec3 := ⟨some 0, some 0, some 0⟩

/-- `dx*dx + dy*dy + dz*dz` of the difference of two `Vec3`s, exactly as
computed inside `animate` (the code then takes `Math.sqrt` and compares with
`2`; we compare the square with `4`). -/
def jdist2 (a b : Vec3) : JSNum :=
  jadd (jadd (jmul (jsub a.x b.x) (jsub a.x b.x))
             (jmul (jsub a.y b.y) (jsub a.y b.y)))
       (jmul (jsub a.z b.z) (jsub a.z b.z))

/-- A command entry as stored in `commandQueue` after `loadCommands`:
the caller's `{action, x?, y?, z?, speed?, description?}` plus the
`index`/`completed` fields added by `loadCommands`. -/
structure Command where
  action : String
  x : JSNum := none
  y : JSNum := none
  z : JSNum := none
  speed : JSNum := none
  description : Option String := none
  index : ℕ := 0
  completed : Bool := false
deriving DecidableEq

/-- The two kinds of `setTimeout` callback the engine schedules. -/
inductive TimerKind where
  | execNext      -- `setTimeout(() => this.executeNextCommand(), 200)`
  | completeCur   -- `setTimeout(() => this.completeCurrentCommand(), …)`
deriving DecidableEq

/-- The mutable state of a `RobotVisualizer` instance, plus the pending-timer
list and clock of the host event loop. -/
structure Engine where
  position : Vec3 := Vec3.zero
  targetPosition : Vec3 := Vec3.zero
  currentPosition : Vec3 := Vec3.zero
  gripperOpen : Bool := true
  isAnimating : Bool := false
  animationSpeed : ℚ := 1/50           -- 0.02
  commandQueue : List Command := []
  currentCommandIndex : ℕ := 0
  isPaused : Bool := false
  timers : List (ℚ × TimerKind) := []  -- pending setTimeout callbacks
  now : ℚ := 0                          -- current event-loop time
  nextTick : ℚ := 16                    -- due time of the next animation frame
deriving DecidableEq

/-- The state right after the constructor runs. -/
def initEngine : Engine := {}

/-- Model of `setTimeout(k, delay)`. -/
def schedule (s : Engine) (delay : ℚ) (k : TimerKind) : Engine :=
  { s with timers := s.timers ++ [(s.now + delay, k)] }

/-- The queue update of `markCommandCompleted(index)`: sets `completed = true`
on entry `i` if it exists (`if (this.commandQueue[index])`). -/
def setCompleted (q : List Command) (i : ℕ) : List Command :=
  match q.get? i with
  | some cmd => q.set i { cmd with completed := true }
  | none => q

/-- `markCommandCompleted(index)` (the DOM part is omitted). -/
def markCommandCompleted (s : Engine) (i : ℕ) : Engine :=
  { s with commandQueue := setCompleted s.commandQueue i }

/-- `completeCurrentCommand()`: increments the cursor only while it is below
the queue length, then always schedules `executeNextCommand` after 200. -/
def completeCurrentCommand (s : Engine) : Engine :=
  let s1 :=
    if s.currentCommandIndex < s.commandQueue.length then
      let s2 := markCommandCompleted s s.currentCommandIndex
      { s2 with currentCommandIndex := s2.currentCommandIndex + 1 }
    else s
  schedule s1 200 TimerKind.execNext

/-- `completeExecution()`: ends the run (the notification call is external). -/
def completeExecution (s : Engine) : Engine :=
  { s with isAnimating := false }

/-- `executeNextCommand()`: activates `commandQueue[currentCommandIndex]`
unless paused or past the end of the queue. -/
def executeNextCommand (s : Engine) : Engine :=
  if s.isPaused = true ∨ s.commandQueue.length ≤ s.currentCommandIndex then
    if s.commandQueue.length ≤ s.currentCommandIndex then completeExecution s else s
  else
    match s.commandQueue.get? s.currentCommandIndex with
    | none => s
    | some command =>
      match command.action with
      | "move_to" =>
          { s with targetPosition := ⟨command.x, command.y, command.z⟩,
                   animationSpeed := jsOrDefault command.speed 50 / 2500 }
      | "close_gripper" => schedule { s with gripperOpen := false } 1000 TimerKind.completeCur
      | "open_gripper" => schedule { s with gripperOpen := true } 1000 TimerKind.completeCur
      | _ => schedule s 500 TimerKind.completeCur

/-- One execution of the `animate()` body (without the self-rescheduling
`requestAnimationFrame` call, which the event loop models). -/
def animate (s : Engine) : Engine :=
  let s1 :=
    if s.isAnimating then
      let dx := jsub s.targetPosition.x s.currentPosition.x
      let dy := jsub s.targetPosition.y s.currentPosition.y
      let dz := jsub s.targetPosition.z s.currentPosition.z
      let moved : Engine := { s with currentPosition :=
        ⟨jadd s.currentPosition.x (jmul dx (some s.animationSpeed)),
         jadd s.currentPosition.y (jmul dy (some s.animationSpeed)),
         jadd s.currentPosition.z (jmul dz (some s.animationSpeed))⟩ }
      let dist2 := jadd (jadd (jmul dx dx) (jmul dy dy)) (jmul dz dz)
      if jlt dist2 (some 4) then
        completeCurrentCommand { moved with currentPosition := moved.targetPosition }
      else moved
    else s
  { s1 with position := s1.currentPosition }

/-- `loadCommands(commands)`: replaces the queue, tagging each entry with its
index and `completed = false`, and resets the cursor. -/
def loadCommands (s : Engine) (commands : List Command) : Engine :=
  { s with
      commandQueue := commands.enum.map (fun p => { p.2 with index := p.1, completed := false }),
      currentCommandIndex := 0 }

/-- `startExecution()`: no-op on an empty queue, else starts the run and
activates command 0. -/
def startExecution (s : Engine) : Engine :=
  if s.commandQueue.length = 0 then s
  else
    executeNextCommand
      { s with isAnimating := true, isPaused := false, currentCommandIndex := 0 }

/-- `pauseExecution()`: sets `isPaused` unconditionally. -/
def pauseExecution (s : Engine) : Engine :=
  { s with isPaused := true }

/-- `resumeExecution()`: clears `isPaused` and re-enters the activation check. -/
def resumeExecution (s : Engine) : Engine :=
  executeNextCommand { s with isPaused := false }

/-- `stopExecution()`: destructive reset of pose and gripper.  Note that it
does not touch `position` (the rendered snapshot), `currentCommandIndex`,
the queue, or pending timers. -/
def stopExecution (s : Engine) : Engine :=
  { s with isAnimating := false, isPaused := false,
           currentPosition := Vec3.zero,
           targetPosition := Vec3.zero,
           gripperOpen := true }

/-- The snapshot returned by `getState()`. -/
structure EngineSnapshot where
  position : Vec3
  gripperOpen : Bool
  isAnimating : Bool
  isPaused : Bool
  currentCommandIndex : ℕ
  totalCommands : ℕ
deriving DecidableEq

/-- `getState()`. -/
def getState (s : Engine) : EngineSnapshot :=
  ⟨s.position, s.gripperOpen, s.isAnimating, s.isPaused,
   s.currentCommandIndex, s.commandQueue.length⟩

/-! ## The host event loop -/

/-- Animation-frame period (60 fps). -/
def framePeriod : ℚ := 16

/-- Run the next animation frame. -/
def tickStep (s : Engine) : Engine :=
  animate { s with now := s.nextTick, nextTick := s.nextTick + framePeriod }

/-- Position and value of the first pending timer with minimal due time
(FIFO among equal due times, matching the JS timer queue). -/
def firstMinTimer : List (ℚ × TimerKind) → Option (ℕ × ℚ × TimerKind)
  | [] => none
  | (t, k) :: rest =>
    match firstMinTimer rest with
    | none => some (0, t, k)
    | some (i, t', k') => if t ≤ t' then some (0, t, k) else some (i + 1, t', k')

/-- The body of a fired timer callback. -/
def runTimer : TimerKind → Engine → Engine
  | TimerKind.execNext, s => executeNextCommand s
  | TimerKind.completeCur, s => completeCurrentCommand s

/-- One step of the single-threaded event loop: fire the earliest due timer if
it is due no later than the next animation frame, otherwise run the frame. -/
def step (s : Engine) : Engine :=
  match firstMinTimer s.timers with
  | none => tickStep s
  | some (i, t, k) =>
    if t ≤ s.nextTick then runTimer k { s with timers := s.timers.eraseIdx i, now := t }
    else tickStep s

/-- Run `n` event-loop steps. -/
def run : ℕ → Engine → Engine
  | 0, s => s
  | n + 1, s => run n (step s)

/-! ## Scene projector

`project3D` reads `centerX = canvasWidth / 2`, `centerY = canvasHeight - 80`
(from `setupCanvas`) and `scale = 1.5` (constructor).  It is a pure function
of the camera parameters and its three arguments. -/

/-- `project3D(x, y, z)` for a canvas of the given CSS pixel dimensions. -/
noncomputable def project3D (canvasWidth canvasHeight : ℝ) (x y z : ℝ) : ℝ × ℝ :=
  let scale : ℝ := 1.5
  let centerX : ℝ := canvasWidth / 2
  let centerY : ℝ := canvasHeight - 80
  (centerX + (x - y) * Real.cos (Real.pi / 6) * scale,
   centerY - (x + y) * Real.sin (Real.pi / 6) * scale - z * scale)

/-! ## Color utilities

`lightenColor` parses a `#rrggbb` string with `parseInt(hex.substr(_, 2), 16)`,
adds `amount * 255` to each channel, clamps only from above with
`Math.min(255, _)`, and renders the result in `rgb(r, g, b)` notation with
`Math.round`.  `darkenColor` is `lightenColor` with the negated amount.
The JS host builtins used are modelled as follows (for the argument shapes
that actually occur here: no leading whitespace, sign or `0x` prefix):
`parseInt(s, 16)` parses the maximal leading run of hex digits and yields NaN
when there is none; `String.replace('#', '')` removes the first `#`;
`substr(i, n)` takes `n` characters from position `i`; `Math.min(255, NaN)`
is NaN; `Math.round` is `⌊x + 1/2⌋` and maps NaN to NaN; template rendering
prints NaN as `NaN`. -/

/-- Value of a hex digit character, if it is one. -/
def hexDigitVal (c : Char) : Option ℕ :=
  if '0' ≤ c ∧ c ≤ '9' then some (c.toNat - '0'.toNat)
  else if 'a' ≤ c ∧ c ≤ 'f' then some (c.toNat - 'a'.toNat + 10)
  else if 'A' ≤ c ∧ c ≤ 'F' then some (c.toNat - 'A'.toNat + 10)
  else none

/-- JS `parseInt(s, 16)`: maximal leading run of hex digits, NaN if empty. -/
def parseIntHex (str : String) : JSNum :=
  let ds := str.toList.takeWhile (fun c => (hexDigitVal c).isSome)
  if ds = [] then none
  else some ((ds.foldl (fun acc c => acc * 16 + ((hexDigitVal c).getD 0)) 0 : ℕ) : ℚ)

/-- Remove the first occurrence of a character from a list. -/
def removeFirstChar (c : Char) : List Char → List Char
  | [] => []
  | a :: rest => if a = c then rest else a :: removeFirstChar c rest

/-- The `#` character (code point 35). -/
def hashChar : Char := Char.ofNat 35

/-- JS `color.replace(hash, empty)` (replaces the first occurrence of `#`). -/
def jsReplaceHash (s : String) : String :=
  String.mk (removeFirstChar hashChar s.toList)

/-- JS `s.substr(start, len)`. -/
def jsSubstr (s : String) (start len : ℕ) : String :=
  String.mk ((s.toList.drop start).take len)

/-- JS `Math.min(255, x)`: NaN propagates. -/
def jsMin255 : JSNum → JSNum
  | some q => some (min 255 q)
  | none => none

/-- JS `Math.round`: round half toward positive infinity; NaN propagates. -/
def jsRound : JSNum → Option ℤ
  | some q => some ⌊q + 1/2⌋
  | none => none

/-- Rendering of a rounded channel into the `rgb(…)` template. -/
def jsNumToString : Option ℤ → String
  | some n => toString n
  | none => "NaN"

/-- `lightenColor(color, amount)`. -/
def lightenColor (color : String) (amount : ℚ) : String :=
  let hex := jsReplaceHash color
  let r := jsMin255 (jadd (parseIntHex (jsSubstr hex 0 2)) (some (amount * 255)))
  let g := jsMin255 (jadd (parseIntHex (jsSubstr hex 2 2)) (some (amount * 255)))
  let b := jsMin255 (jadd (parseIntHex (jsSubstr hex 4 2)) (some (amount * 255)))
  "rgb(" ++ jsNumToString (jsRound r) ++ ", " ++ jsNumToString (jsRound g) ++ ", "
        ++ jsNumToString (jsRound b) ++ ")"

/-- `darkenColor(color, amount) = lightenColor(color, -amount)`. -/
def darkenColor (color : String) (amount : ℚ) : String :=
  lightenColor color (-amount)

/-- The numeric per-channel transform of `lightenColor` in isolation
(line `const r = Math.min(255, parseInt(...) + amount * 255)`), applied to an
already-parsed channel value. -/
def lightenChannelVal (c a : ℚ) : ℚ :=
  min 255 (c + a * 255)

/-- The `Math.round` applied to each channel at rendering time. -/
def roundChannel (q : ℚ) : ℤ :=
  ⌊q + 1/2⌋

/-- Engine states reachable from construction through the public operations
and the host event loop (`step` covers animation frames and timer callbacks;
`destroy` delegates to `stopExecution` and `getState`/`handleResize` do not
mutate engine state). -/
inductive Reachable : Engine → Prop where
  | init : Reachable initEngine
  | load {s} (cmds : List Command) : Reachable s → Reachable (loadCommands s cmds)
  | start {s} : Reachable s → Reachable (startExecution s)
  | pause {s} : Reachable s → Reachable (pauseExecution s)
  | resume {s} : Reachable s → Reachable (resumeExecution s)
  | stop {s} : Reachable s → Reachable (stopExecution s)
  | evstep {s} : Reachable s → Reachable (step s)

/-! ## Concrete fixtures used by the claims -/

/-- `MoveTo{x:10, y:0, z:0, speed:50}`. -/
def mvCmd : Command :=
  { action := "move_to", x := some 10, y := some 0, z := some 0, speed := some 50 }

/-- `CloseGripper`. -/
def cgCmd : Command := { action := "close_gripper" }

/-- `OpenGripper`. -/
def ogCmd : Command := { action := "open_gripper" }

/-- A `move_to` with speed 5000, giving interpolation rate `2`. -/
def fastCmd : Command :=
  { action := "move_to", x := some 10, y := some 0, z := some 0, speed := some 5000 }

/-- A `move_to` with speed 2500, giving interpolation rate `1`. -/
def instCmd : Command :=
  { action := "move_to", x := some 10, y := some 0, z := some 0, speed := some 2500 }

/-- A `move_to` whose target coincides with the initial position. -/
def homeCmd : Command :=
  { action := "move_to", x := some 0, y := some 0, z := some 0, speed := some 50 }

/-- A `move_to` whose target is already within the convergence threshold. -/
def nearCmd : Command :=
  { action := "move_to", x := some 1, y := some 0, z := some 0, speed := some 50 }

/-- A malformed `move_to` with all of `x`, `y`, `z`, `speed` missing. -/
def noneCmd : Command := { action := "move_to" }

/-- The engine right after loading and starting `[mvCmd]`. -/
def mvStart : Engine := startExecution (loadCommands initEngine [mvCmd])

/-- The engine right after loading and starting the three-command demo. -/
def demoStart : Engine := startExecution (loadCommands initEngine [mvCmd, cgCmd, ogCmd])

/-- The engine right after loading and starting `[fastCmd]` (rate 2). -/
def fastStart : Engine := startExecution (loadCommands initEngine [fastCmd])

/-- Paused mid-`MoveTo` with the target already within the threshold. -/
def pausedNear : Engine := pauseExecution (startExecution (loadCommands initEngine [nearCmd]))

/-- Paused mid-`MoveTo` with the target far from the current position. -/
def pausedFar : Engine := pauseExecution mvStart

end RobotViz

namespace RobotViz

/-! ## Basic facts about the JS number model -/

theorem jadd_some (a b : ℚ) : jadd (some a) (some b) = some (a + b) := rfl

theorem jsub_some (a b : ℚ) : jsub (some a) (some b) = some (a - b) := rfl

theorem jmul_some (a b : ℚ) : jmul (some a) (some b) = some (a * b) := rfl

theorem jlt_some (a b : ℚ) : jlt (some a) (some b) = decide (a < b) := rfl

theorem jdist2_some (a₁ a₂ a₃ b₁ b₂ b₃ : ℚ) :
    jdist2 ⟨some a₁, some a₂, some a₃⟩ ⟨some b₁, some b₂, some b₃⟩ =
      some ((a₁ - b₁) * (a₁ - b₁) + (a₂ - b₂) * (a₂ - b₂) + (a₃ - b₃) * (a₃ - b₃)) := rfl

/-! ## Which fields each engine operation touches -/

theorem setCompleted_length (q : List Command) (i : ℕ) :
    (setCompleted q i).length = q.length := by
  unfold setCompleted
  split <;> simp

theorem completeCurrentCommand_currentPosition (s : Engine) :
    (completeCurrentCommand s).currentPosition = s.currentPosition := by
  unfold completeCurrentCommand schedule markCommandCompleted
  split <;> rfl

theorem completeCurrentCommand_targetPosition (s : Engine) :
    (completeCurrentCommand s).targetPosition = s.targetPosition := by
  unfold completeCurrentCommand schedule markCommandCompleted
  split <;> rfl

theorem completeCurrentCommand_isAnimating (s : Engine) :
    (completeCurrentCommand s).isAnimating = s.isAnimating := by
  unfold completeCurrentCommand schedule markCommandCompleted
  split <;> rfl

theorem completeCurrentCommand_isPaused (s : Engine) :
    (completeCurrentCommand s).isPaused = s.isPaused := by
  unfold completeCurrentCommand schedule markCommandCompleted
  split <;> rfl

theorem completeCurrentCommand_animationSpeed (s : Engine) :
    (completeCurrentCommand s).animationSpeed = s.animationSpeed := by
  unfold completeCurrentCommand schedule markCommandCompleted
  split <;> rfl

theorem completeCurrentCommand_gripperOpen (s : Engine) :
    (completeCurrentCommand s).gripperOpen = s.gripperOpen := by
  unfold completeCurrentCommand schedule markCommandCompleted
  split <;> rfl

theorem completeCurrentCommand_index (s : Engine) :
    (completeCurrentCommand s).currentCommandIndex =
      if s.currentCommandIndex < s.commandQueue.length then s.currentCommandIndex + 1
      else s.currentCommandIndex := by
  unfold completeCurrentCommand schedule markCommandCompleted
  split <;> simp_all

theorem completeCurrentCommand_queueLength (s : Engine) :
    (completeCurrentCommand s).commandQueue.length = s.commandQueue.length := by
  unfold completeCurrentCommand schedule markCommandCompleted
  split <;> simp [setCompleted_length]

theorem executeNextCommand_index (s : Engine) :
    (executeNextCommand s).currentCommandIndex = s.currentCommandIndex := by
  unfold executeNextCommand completeExecution schedule
  repeat' split <;> try rfl

theorem executeNextCommand_commandQueue (s : Engine) :
    (executeNextCommand s).commandQueue = s.commandQueue := by
  unfold executeNextCommand completeExecution schedule
  repeat' split <;> try rfl

/-! ## Behavior of a single animation tick -/

theorem animate_targetPosition (s : Engine) :
    (animate s).targetPosition = s.targetPosition := by
  simp only [animate]
  split
  · split
    · simp [completeCurrentCommand_targetPosition]
    · rfl
  · rfl

theorem animate_isAnimating (s : Engine) :
    (animate s).isAnimating = s.isAnimating := by
  simp only [animate]
  split
  · split
    · simp [completeCurrentCommand_isAnimating]
    · rfl
  · rfl

theorem animate_isPaused (s : Engine) :
    (animate s).isPaused = s.isPaused := by
  simp only [animate]
  split
  · split
    · simp [completeCurrentCommand_isPaused]
    · rfl
  · rfl

theorem animate_animationSpeed (s : Engine) :
    (animate s).animationSpeed = s.animationSpeed := by
  simp only [animate]
  split
  · split
    · simp [completeCurrentCommand_animationSpeed]
    · rfl
  · rfl

theorem animate_gripperOpen (s : Engine) :
    (animate s).gripperOpen = s.gripperOpen := by
  simp only [animate]
  split
  · split
    · simp [completeCurrentCommand_gripperOpen]
    · rfl
  · rfl

theorem animate_queueLength (s : Engine) :
    (animate s).commandQueue.length = s.commandQueue.length := by
  simp only [animate]
  split
  · split
    · simp [completeCurrentCommand_queueLength]
    · rfl
  · rfl

theorem animate_index_cases (s : Engine) :
    (animate s).currentCommandIndex = s.currentCommandIndex ∨
      ((animate s).currentCommandIndex = s.currentCommandIndex + 1 ∧
        s.currentCommandIndex < s.commandQueue.length) := by
  simp only [animate]
  split
  · split
    · rw [completeCurrentCommand_index]
      split
      · right; simp_all
      · left; rfl
    · left; rfl
  · left; rfl

/-- A tick on an animating state whose squared distance to target is below 4:
the position snaps to the target and the command is completed. -/
theorem animate_near (s : Engine) (tx ty tz cx cy cz : ℚ)
    (hA : s.isAnimating = true)
    (ht : s.targetPosition = ⟨some tx, some ty, some tz⟩)
    (hc : s.currentPosition = ⟨some cx, some cy, some cz⟩)
    (h4 : (tx - cx) * (tx - cx) + (ty - cy) * (ty - cy) + (tz - cz) * (tz - cz) < 4) :
    (animate s).currentPosition = ⟨some tx, some ty, some tz⟩ ∧
    (animate s).currentCommandIndex =
      (if s.currentCommandIndex < s.commandQueue.length then s.currentCommandIndex + 1
       else s.currentCommandIndex) := by
  simp only [animate, ht, hc, hA, if_true, jsub_some, jmul_some, jadd_some, jlt_some]
  rw [if_pos (by simpa using h4)]
  refine ⟨?_, ?_⟩
  · rw [completeCurrentCommand_currentPosition]
  · rw [completeCurrentCommand_index]

/-- A tick on an animating state whose squared distance to target is at least
4: the position moves by `delta * animationSpeed` and the cursor is
unchanged. -/
theorem animate_far (s : Engine) (tx ty tz cx cy cz : ℚ)
    (hA : s.isAnimating = true)
    (ht : s.targetPosition = ⟨some tx, some ty, some tz⟩)
    (hc : s.currentPosition = ⟨some cx, some cy, some cz⟩)
    (h4 : 4 ≤ (tx - cx) * (tx - cx) + (ty - cy) * (ty - cy) + (tz - cz) * (tz - cz)) :
    (animate s).currentPosition =
      ⟨some (cx + (tx - cx) * s.animationSpeed),
       some (cy + (ty - cy) * s.animationSpeed),
       some (cz + (tz - cz) * s.animationSpeed)⟩ ∧
    (animate s).currentCommandIndex = s.currentCommandIndex := by
  simp only [animate, ht, hc, hA, if_true, jsub_some, jmul_some, jadd_some, jlt_some]
  rw [if_neg (by simpa using not_lt.mpr h4)]
  exact ⟨rfl, rfl⟩

/-- Iterating ticks from an animating state with a fixed rational target:
the target, animation flag and rate never change, and the current position is
either exactly the target (after the snap) or on the exponential-decay
trajectory `target - delta0 * (1 - rate)^k`. -/
theorem animate_iter_traj (s : Engine) (tx ty tz cx cy cz : ℚ)
    (hA : s.isAnimating = true)
    (ht : s.targetPosition = ⟨some tx, some ty, some tz⟩)
    (hc : s.currentPosition = ⟨some cx, some cy, some cz⟩) :
    ∀ k : ℕ,
      (animate^[k] s).targetPosition = ⟨some tx, some ty, some tz⟩ ∧
      (animate^[k] s).isAnimating = true ∧
      (animate^[k] s).animationSpeed = s.animationSpeed ∧
      ((animate^[k] s).currentPosition = ⟨some tx, some ty, some tz⟩ ∨
       (animate^[k] s).currentPosition =
         ⟨some (tx - (tx - cx) * (1 - s.animationSpeed) ^ k),
          some (ty - (ty - cy) * (1 - s.animationSpeed) ^ k),
          some (tz - (tz - cz) * (1 - s.animationSpeed) ^ k)⟩) := by
  intro k
  induction k with
  | zero =>
    refine ⟨ht, hA, rfl, Or.inr ?_⟩
    rw [Function.iterate_zero_apply, hc]
    congr 1 <;> ring_nf
  | succ k ih =>
    obtain ⟨iht, ihA, ihr, ihc⟩ := ih
    rw [Function.iterate_succ_apply']
    refine ⟨by rw [animate_targetPosition, iht], by rw [animate_isAnimating, ihA],
      by rw [animate_animationSpeed, ihr], ?_⟩
    rcases ihc with ihc | ihc
    · left
      have h := animate_near (animate^[k] s) tx ty tz tx ty tz ihA iht ihc (by nlinarith)
      exact h.1
    · by_cases hD :
        (tx - (tx - (tx - cx) * (1 - s.animationSpeed) ^ k)) *
            (tx - (tx - (tx - cx) * (1 - s.animationSpeed) ^ k)) +
          (ty - (ty - (ty - cy) * (1 - s.animationSpeed) ^ k)) *
            (ty - (ty - (ty - cy) * (1 - s.animationSpeed) ^ k)) +
          (tz - (tz - (tz - cz) * (1 - s.animationSpeed) ^ k)) *
            (tz - (tz - (tz - cz) * (1 - s.animationSpeed) ^ k)) < 4
      · left
        have h := animate_near (animate^[k] s) tx ty tz
          (tx - (tx - cx) * (1 - s.animationSpeed) ^ k)
          (ty - (ty - cy) * (1 - s.animationSpeed) ^ k)
          (tz - (tz - cz) * (1 - s.animationSpeed) ^ k) ihA iht ihc hD
        exact h.1
      · right
        have h := animate_far (animate^[k] s) tx ty tz
          (tx - (tx - cx) * (1 - s.animationSpeed) ^ k)
          (ty - (ty - cy) * (1 - s.animationSpeed) ^ k)
          (tz - (tz - cz) * (1 - s.animationSpeed) ^ k) ihA iht ihc (not_lt.mp hD)
        rw [h.1, ihr]
        congr 1 <;> ring_nf

/-- With an interpolation rate strictly between 0 and 2, iterated ticks
eventually snap the current position exactly onto the target. -/
theorem animate_converges (s : Engine) (tx ty tz cx cy cz : ℚ)
    (hA : s.isAnimating = true)
    (ht : s.targetPosition = ⟨some tx, some ty, some tz⟩)
    (hc : s.currentPosition = ⟨some cx, some cy, some cz⟩)
    (hr : 0 < s.animationSpeed) (hr2 : s.animationSpeed < 2) :
    ∃ n, (animate^[n] s).currentPosition = ⟨some tx, some ty, some tz⟩ := by
  set r := s.animationSpeed with hrdef
  set D0 : ℚ := (tx - cx) * (tx - cx) + (ty - cy) * (ty - cy) + (tz - cz) * (tz - cz) with hD0def
  have hD0 : 0 ≤ D0 := by
    nlinarith [mul_self_nonneg (tx - cx), mul_self_nonneg (ty - cy), mul_self_nonneg (tz - cz)]
  have hq1 : (1 - r) ^ 2 < 1 := by nlinarith
  obtain ⟨n, hn⟩ : ∃ n : ℕ, ((1 - r) ^ n) ^ 2 * D0 < 4 := by
    rcases eq_or_lt_of_le hD0 with h0 | h0
    · exact ⟨0, by rw [← h0]; norm_num⟩
    · obtain ⟨n, hn⟩ := exists_pow_lt_of_lt_one (div_pos (by norm_num : (0:ℚ) < 4) h0) hq1
      refine ⟨n, ?_⟩
      rw [← pow_right_comm]
      exact (lt_div_iff₀ h0).mp hn
  obtain ⟨iht, ihA, ihr, ihc⟩ := animate_iter_traj s tx ty tz cx cy cz hA ht hc n
  rcases ihc with ihc | ihc
  · exact ⟨n, ihc⟩
  · refine ⟨n + 1, ?_⟩
    rw [Function.iterate_succ_apply']
    have hD : (tx - (tx - (tx - cx) * (1 - r) ^ n)) *
          (tx - (tx - (tx - cx) * (1 - r) ^ n)) +
        (ty - (ty - (ty - cy) * (1 - r) ^ n)) *
          (ty - (ty - (ty - cy) * (1 - r) ^ n)) +
        (tz - (tz - (tz - cz) * (1 - r) ^ n)) *
          (tz - (tz - (tz - cz) * (1 - r) ^ n)) < 4 := by
      calc (tx - (tx - (tx - cx) * (1 - r) ^ n)) *
              (tx - (tx - (tx - cx) * (1 - r) ^ n)) +
            (ty - (ty - (ty - cy) * (1 - r) ^ n)) *
              (ty - (ty - (ty - cy) * (1 - r) ^ n)) +
            (tz - (tz - (tz - cz) * (1 - r) ^ n)) *
              (tz - (tz - (tz - cz) * (1 - r) ^ n))
          = ((1 - r) ^ n) ^ 2 * D0 := by rw [hD0def]; ring
        _ < 4 := hn
    have h := animate_near (animate^[n] s) tx ty tz
      (tx - (tx - cx) * (1 - r) ^ n) (ty - (ty - cy) * (1 - r) ^ n)
      (tz - (tz - cz) * (1 - r) ^ n) ihA iht (by rw [hrdef]; exact ihc) hD
    exact h.1

/-! ## Behavior of the event loop with respect to the command cursor -/

theorem step_index_cases (s : Engine) :
    (step s).currentCommandIndex = s.currentCommandIndex ∨
      ((step s).currentCommandIndex = s.currentCommandIndex + 1 ∧
        s.currentCommandIndex < s.commandQueue.length) := by
  unfold step tickStep runTimer
  split
  · exact animate_index_cases _
  · split
    · split
      · left; exact executeNextCommand_index _
      · rw [completeCurrentCommand_index]
        split
        · right; simp_all
        · left; rfl
    · exact animate_index_cases _

theorem step_queueLength (s : Engine) :
    (step s).commandQueue.length = s.commandQueue.length := by
  unfold step tickStep runTimer
  split
  · exact animate_queueLength _
  · split
    · split
      · rw [executeNextCommand_commandQueue]
      · exact completeCurrentCommand_queueLength _
    · exact animate_queueLength _

/-! ## The claims -/

/-- Claim C1, as stated, is false: for the MoveTo command `fastCmd`
(target `{10,0,0}`, `speed: 5000`, hence interpolation rate
`5000 / 2500 = 2`), while the engine is animating the distance from
`currentPosition` to `targetPosition` does not strictly decrease on any tick
— the squared distance stays exactly 100 tick after tick, with no new target
assignment, so it also never falls below the threshold. -/
theorem claim1_counterexample :
    fastStart.isAnimating = true ∧
    fastStart.animationSpeed = 2 ∧
    jdist2 fastStart.targetPosition fastStart.currentPosition = some 100 ∧
    jdist2 (animate fastStart).targetPosition (animate fastStart).currentPosition = some 100 ∧
    jdist2 (animate (animate fastStart)).targetPosition
        (animate (animate fastStart)).currentPosition = some 100 := by
  with_unfolding_all decide

/-- Claim C1 (amended): for every animating engine state whose target and
current positions are plain numbers and whose interpolation rate lies
strictly between 0 and 2 (equivalently `0 < speed < 5000`; the rate is
`speed / 2500`), the squared Euclidean distance from `currentPosition` to
`targetPosition` strictly decreases on each tick while it is positive, absent
a new target assignment, and after finitely many ticks `currentPosition` is
snapped exactly equal to `targetPosition` (the snap happens on the first tick
whose pre-move distance is below the convergence threshold of 2 world
units). -/
theorem claim1_amended (s : Engine) (tx ty tz cx cy cz : ℚ)
    (hA : s.isAnimating = true)
    (ht : s.targetPosition = ⟨some tx, some ty, some tz⟩)
    (hc : s.currentPosition = ⟨some cx, some cy, some cz⟩)
    (hr : 0 < s.animationSpeed) (hr2 : s.animationSpeed < 2) :
    (∀ d d', jdist2 s.targetPosition s.currentPosition = some d →
        jdist2 (animate s).targetPosition (animate s).currentPosition = some d' →
        0 < d → d' < d) ∧
    ∃ n, (animate^[n] s).currentPosition = s.targetPosition := by
  constructor
  · intro d d' hd hd' hdpos
    rw [ht, hc, jdist2_some] at hd
    have h1 := Option.some.inj hd
    by_cases h4 : (tx - cx) * (tx - cx) + (ty - cy) * (ty - cy) + (tz - cz) * (tz - cz) < 4
    · have h := animate_near s tx ty tz cx cy cz hA ht hc h4
      rw [animate_targetPosition, ht, h.1, jdist2_some] at hd'
      have h2 := Option.some.inj hd'
      have hz : d' = 0 := by rw [← h2]; ring
      rw [hz]
      exact hdpos
    · have h := animate_far s tx ty tz cx cy cz hA ht hc (not_lt.mp h4)
      rw [animate_targetPosition, ht, h.1, jdist2_some] at hd'
      have h2 := Option.some.inj hd'
      have hd'eq : d' = (1 - s.animationSpeed) ^ 2 * d := by
        rw [← h1, ← h2]; ring
      have hq1 : (1 - s.animationSpeed) ^ 2 < 1 := by nlinarith
      rw [hd'eq]
      nlinarith
  · rw [ht]
    exact animate_converges s tx ty tz cx cy cz hA ht hc hr hr2

/-- Witness for the amended C1 at the concrete state `mvStart`
(`MoveTo{10,0,0,speed:50}` just activated, rate `1/50`). -/
theorem claim1_witness :
    mvStart.isAnimating = true ∧
    mvStart.targetPosition = ⟨some 10, some 0, some 0⟩ ∧
    mvStart.currentPosition = ⟨some 0, some 0, some 0⟩ ∧
    0 < mvStart.animationSpeed ∧ mvStart.animationSpeed < 2 ∧
    ((∀ d d', jdist2 mvStart.targetPosition mvStart.currentPosition = some d →
        jdist2 (animate mvStart).targetPosition (animate mvStart).currentPosition = some d' →
        0 < d → d' < d) ∧
      ∃ n, (animate^[n] mvStart).currentPosition = mvStart.targetPosition) := by
  refine ⟨rfl, rfl, rfl, by with_unfolding_all decide, by with_unfolding_all decide, ?_⟩
  exact claim1_amended mvStart 10 0 0 0 0 0 rfl rfl rfl
    (by with_unfolding_all decide) (by with_unfolding_all decide)

set_option maxRecDepth 100000 in
/-- Claim C2: starting from the default initial engine state with the queue
`[MoveTo{10,0,0,speed:50}, CloseGripper, OpenGripper]`, after `startExecution`
and a full run of the event loop (all pending timers drained), the final state
has `gripperOpen = true`, `currentCommandIndex = 3`, the position exactly
`{10,0,0}` (hence within the convergence threshold), and
`isAnimating = false`. -/
theorem claim2_sequence_execution :
    (run 130 demoStart).gripperOpen = true ∧
    (run 130 demoStart).currentCommandIndex = 3 ∧
    (run 130 demoStart).currentPosition = ⟨some 10, some 0, some 0⟩ ∧
    (run 130 demoStart).position = ⟨some 10, some 0, some 0⟩ ∧
    (run 130 demoStart).isAnimating = false ∧
    (run 130 demoStart).isPaused = false ∧
    (run 130 demoStart).timers = [] := by
  with_unfolding_all decide

/-- Claim C3, as stated, is false: after running one step of execution of
`MoveTo{10,0,0,speed:2500}` (one tick moves the arm to `{10,0,0}`), calling
`stopExecution()` leaves the `position` reported by `getState` at `{10,0,0}`,
not `{0,0,0}` — `stopExecution` resets `currentPosition` but `getState` reads
the `position` snapshot, which is only refreshed by the next tick. -/
theorem claim3_counterexample :
    (getState (stopExecution (step (startExecution
        (loadCommands initEngine [instCmd]))))).position = ⟨some 10, some 0, some 0⟩ ∧
    (getState (stopExecution (step (startExecution
        (loadCommands initEngine [instCmd]))))).position ≠ Vec3.zero := by
  with_unfolding_all decide

/-- Claim C3 (amended): for every prior engine state, immediately after
`stopExecution()` the state has `isAnimating = false`, `isPaused = false`,
`gripperOpen = true`, and `currentPosition` and `targetPosition` reset to the
origin; however `getState` still reports the pre-stop `position` snapshot,
which becomes `{0,0,0}` only after the next animation tick. -/
theorem claim3_amended (s : Engine) :
    (stopExecution s).isAnimating = false ∧
    (stopExecution s).isPaused = false ∧
    (stopExecution s).gripperOpen = true ∧
    (stopExecution s).currentPosition = Vec3.zero ∧
    (stopExecution s).targetPosition = Vec3.zero ∧
    (getState (stopExecution s)).position = s.position ∧
    (getState (animate (stopExecution s))).position = Vec3.zero := by
  refine ⟨rfl, rfl, rfl, rfl, rfl, rfl, ?_⟩
  simp [animate, stopExecution, getState]

/-- Claim C4, as stated, is false: in the paused, animating state
`pausedNear` (a `MoveTo{1,0,0}` was activated, pre-move distance `1 < 2`),
a single tick still runs `completeCurrentCommand` — pause gates only
`executeNextCommand` — so `currentCommandIndex` changes from 0 to 1 on a tick
while paused. -/
theorem claim4_counterexample :
    pausedNear.isAnimating = true ∧
    pausedNear.isPaused = true ∧
    pausedNear.currentCommandIndex = 0 ∧
    (animate pausedNear).currentCommandIndex = 1 := by
  with_unfolding_all decide

/-- Claim C4 (amended): while paused mid-`MoveTo` (with plain-number target
and current positions and rate in `(0, 2)`), a tick whose pre-move squared
distance is at least the threshold (`≥ 4`) leaves `currentCommandIndex`
unchanged, while `currentPosition` still moves toward `targetPosition` by
`delta * animationSpeed` — convergence is not frozen by pause, and after
finitely many ticks the position snaps onto the target (on the snap tick,
as the counterexample shows, `completeCurrentCommand` still increments the
cursor despite the pause). -/
theorem claim4_amended (s : Engine) (tx ty tz cx cy cz : ℚ)
    (hA : s.isAnimating = true) (hP : s.isPaused = true)
    (ht : s.targetPosition = ⟨some tx, some ty, some tz⟩)
    (hc : s.currentPosition = ⟨some cx, some cy, some cz⟩)
    (h4 : 4 ≤ (tx - cx) * (tx - cx) + (ty - cy) * (ty - cy) + (tz - cz) * (tz - cz))
    (hr : 0 < s.animationSpeed) (hr2 : s.animationSpeed < 2) :
    (animate s).currentCommandIndex = s.currentCommandIndex ∧
    (animate s).isPaused = true ∧
    (animate s).currentPosition =
      ⟨some (cx + (tx - cx) * s.animationSpeed),
       some (cy + (ty - cy) * s.animationSpeed),
       some (cz + (tz - cz) * s.animationSpeed)⟩ ∧
    ∃ n, (animate^[n] s).currentPosition = s.targetPosition := by
  have h := animate_far s tx ty tz cx cy cz hA ht hc h4
  refine ⟨h.2, by rw [animate_isPaused, hP], h.1, ?_⟩
  rw [ht]
  exact animate_converges s tx ty tz cx cy cz hA ht hc hr hr2

/-- Witness for the amended C4 at the concrete paused state `pausedFar`
(`MoveTo{10,0,0,speed:50}` active, squared distance 100, rate `1/50`). -/
theorem claim4_witness :
    pausedFar.isAnimating = true ∧ pausedFar.isPaused = true ∧
    pausedFar.targetPosition = ⟨some 10, some 0, some 0⟩ ∧
    pausedFar.currentPosition = ⟨some 0, some 0, some 0⟩ ∧
    ((4:ℚ) ≤ ((10:ℚ) - 0) * ((10:ℚ) - 0) + ((0:ℚ) - 0) * ((0:ℚ) - 0)
        + ((0:ℚ) - 0) * ((0:ℚ) - 0)) ∧
    0 < pausedFar.animationSpeed ∧ pausedFar.animationSpeed < 2 ∧
    ((animate pausedFar).currentCommandIndex = pausedFar.currentCommandIndex ∧
      (animate pausedFar).isPaused = true ∧
      (animate pausedFar).currentPosition =
        ⟨some (0 + ((10:ℚ) - 0) * pausedFar.animationSpeed),
         some (0 + ((0:ℚ) - 0) * pausedFar.animationSpeed),
         some (0 + ((0:ℚ) - 0) * pausedFar.animationSpeed)⟩ ∧
      ∃ n, (animate^[n] pausedFar).currentPosition = pausedFar.targetPosition) := by
  refine ⟨rfl, rfl, rfl, rfl, by norm_num, by with_unfolding_all decide,
    by with_unfolding_all decide, ?_⟩
  exact claim4_amended pausedFar 10 0 0 0 0 0 rfl rfl rfl rfl (by norm_num)
    (by with_unfolding_all decide) (by with_unfolding_all decide)

/-- Claim C5, as stated, is false: after `MoveTo{0,0,0}` completes on the
first tick (`currentCommandIndex = 1`), `stopExecution()` does NOT reset the
cursor to 0 — it stays 1 — while `startExecution` (not in the claim's list)
is an operation that does reset it to 0. -/
theorem claim5_counterexample :
    (animate (startExecution (loadCommands initEngine [homeCmd]))).currentCommandIndex = 1 ∧
    (stopExecution (animate (startExecution
        (loadCommands initEngine [homeCmd])))).currentCommandIndex = 1 ∧
    (startExecution (stopExecution (animate (startExecution
        (loadCommands initEngine [homeCmd]))))).currentCommandIndex = 0 := by
  with_unfolding_all decide

/-- Claim C5 (amended): `currentCommandIndex` is monotonically non-decreasing
under ticks, timer callbacks and event-loop steps; among the public
operations, `loadCommands` and `startExecution` (on a nonempty queue) reset
it to 0, while `stopExecution`, `pauseExecution` and `resumeExecution` leave
it unchanged. -/
theorem claim5_amended (s : Engine) (cmds : List Command) :
    s.currentCommandIndex ≤ (animate s).currentCommandIndex ∧
    s.currentCommandIndex ≤ (completeCurrentCommand s).currentCommandIndex ∧
    (executeNextCommand s).currentCommandIndex = s.currentCommandIndex ∧
    s.currentCommandIndex ≤ (step s).currentCommandIndex ∧
    (loadCommands s cmds).currentCommandIndex = 0 ∧
    ((startExecution s).currentCommandIndex = 0 ∨ startExecution s = s) ∧
    (stopExecution s).currentCommandIndex = s.currentCommandIndex ∧
    (pauseExecution s).currentCommandIndex = s.currentCommandIndex ∧
    (resumeExecution s).currentCommandIndex = s.currentCommandIndex := by
  refine ⟨?_, ?_, executeNextCommand_index s, ?_, rfl, ?_, rfl, rfl, ?_⟩
  · rcases animate_index_cases s with h | h
    · omega
    · omega
  · rw [completeCurrentCommand_index]
    split <;> omega
  · rcases step_index_cases s with h | h
    · omega
    · omega
  · unfold startExecution
    split
    · right; rfl
    · left; rw [executeNextCommand_index]
  · unfold resumeExecution
    rw [executeNextCommand_index]

/-- Claim C6, as stated, is false: `pauseExecution` sets `isPaused`
unconditionally, so calling it on the freshly constructed (idle) engine is
not a no-op and reaches the supposedly unreachable combination
`isAnimating = false, isPaused = true`. -/
theorem claim6_counterexample :
    Reachable (pauseExecution initEngine) ∧
    (pauseExecution initEngine).isAnimating = false ∧
    (pauseExecution initEngine).isPaused = true :=
  ⟨Reachable.pause Reachable.init, rfl, rfl⟩

/-- Claim C6 (amended): `pauseExecution` unconditionally sets
`isPaused = true` and leaves `isAnimating` unchanged — so pausing while not
running is observable (not a no-op) and makes the combination
`(isAnimating, isPaused) = (false, true)` reachable from the initial state. -/
theorem claim6_amended (s : Engine) :
    (pauseExecution s).isPaused = true ∧
    (pauseExecution s).isAnimating = s.isAnimating :=
  ⟨rfl, rfl⟩

/-- Claim C7, as stated, is false: activating a `move_to` command with all of
`x`, `y`, `z` missing does not substitute 0 for the target components — the
target becomes `{undefined, undefined, undefined}`, not the origin. -/
theorem claim7_counterexample :
    (startExecution (loadCommands initEngine [noneCmd])).targetPosition = ⟨none, none, none⟩ ∧
    (startExecution (loadCommands initEngine [noneCmd])).targetPosition ≠ Vec3.zero := by
  with_unfolding_all decide

/-- Claim C7 (amended): when a `move_to` queue entry is activated, a missing
`speed` is defaulted to 50 (rate `50 / 2500 = 1/50`) by `command.speed || 50`,
but missing `x`/`y`/`z` are NOT defaulted: `targetPosition` receives the
fields verbatim (undefined stays undefined), and on subsequent ticks the NaN
arithmetic leaves `currentPosition` undefined and never converges, so the
cursor never advances; the engine still never throws on such malformed data
(every operation is total). -/
theorem claim7_amended (ox oy oz : JSNum) :
    (startExecution (loadCommands initEngine
        [{ action := "move_to", x := ox, y := oy, z := oz }])).targetPosition = ⟨ox, oy, oz⟩ ∧
    (startExecution (loadCommands initEngine
        [{ action := "move_to", x := ox, y := oy, z := oz }])).animationSpeed = 50 / 2500 ∧
    (50 : ℚ) / 2500 = 1 / 50 ∧
    (animate (startExecution (loadCommands initEngine [noneCmd]))).currentPosition
        = ⟨none, none, none⟩ ∧
    (animate (startExecution (loadCommands initEngine [noneCmd]))).currentCommandIndex = 0 := by
  refine ⟨rfl, rfl, by norm_num, ?_, ?_⟩
  · with_unfolding_all decide
  · with_unfolding_all decide

/-- Claim C8: `project3D` is a pure function of its arguments and the camera
parameters (it is a Lean function of exactly those, so determinism is by
construction), and it computes
`screenX = originX + (x - y)·cos(30°)·scale` and
`screenY = originY - (x + y)·sin(30°)·scale - z·scale`
with `cos(30°) = √3/2`, `sin(30°) = 1/2`, `scale = 1.5`,
`originX = canvasWidth/2`, `originY = canvasHeight - 80`; consequently
`project3D(0,0,0)` is exactly the screen origin for the given canvas size. -/
theorem claim8_project3D (w h x y z : ℝ) :
    project3D w h x y z =
      (w / 2 + (x - y) * (Real.sqrt 3 / 2) * 1.5,
       (h - 80) - (x + y) * (1 / 2) * 1.5 - z * 1.5) ∧
    project3D w h 0 0 0 = (w / 2, h - 80) := by
  constructor
  · simp only [project3D, Real.cos_pi_div_six, Real.sin_pi_div_six]
  · simp only [project3D, Real.cos_pi_div_six, Real.sin_pi_div_six, Prod.mk.injEq]
    constructor <;> ring

/-- Claim C9, as stated, is false: `lightenColor` returns a color in
`rgb(r, g, b)` notation while the channel parser expects `#rrggbb` hex, so
the round trip `darkenColor(lightenColor(c, a), a)` does not return
(approximately) `c`: for `c = #808080`, `a = 0.1` it returns
`rgb(NaN, -14, -4)` (the `r` channel parses as NaN, and `b(`/`15` parse as
stray hex 11 and 21).  Moreover the claimed per-channel
`clamp(channel + amount·255, 0, 255)` has no lower clamp in the code:
darkening black by 1 yields `rgb(-255, -255, -255)`, not `rgb(0, 0, 0)`. -/
theorem claim9_counterexample :
    lightenColor "#808080" (1/10) = "rgb(154, 154, 154)" ∧
    darkenColor (lightenColor "#808080" (1/10)) (1/10) = "rgb(NaN, -14, -4)" ∧
    darkenColor "#000000" 1 = "rgb(-255, -255, -255)" := by
  refine ⟨?_, ?_, ?_⟩
  · with_unfolding_all decide
  · with_unfolding_all decide
  · with_unfolding_all decide

/-- Claim C9 (amended): the string-level round trip is broken by the output
format (see the counterexample), but at the numeric channel level — where
lighten maps a channel `c` to `round(min(255, c + a·255))` and darken is the
same with `-a`, with no lower clamp — lighten-then-darken returns the
original integer channel to within ±1 (rounding tolerance), provided neither
application saturates at the 255 upper clamp. -/
theorem claim9_amended (c : ℤ) (a : ℚ)
    (h1 : (c : ℚ) + a * 255 ≤ 255)
    (h2 : (roundChannel (lightenChannelVal c a) : ℚ) + (-a) * 255 ≤ 255) :
    |roundChannel (lightenChannelVal (roundChannel (lightenChannelVal c a) : ℚ) (-a)) - c|
      ≤ 1 := by
  set t : ℚ := a * 255 with htdef
  have e1 : lightenChannelVal c a = (c : ℚ) + t := by
    rw [lightenChannelVal]
    exact min_eq_right h1
  set k : ℤ := ⌊t + 1/2⌋ with hkdef
  set m : ℤ := roundChannel (lightenChannelVal c a) with hmdef
  have hm : m = c + k := by
    rw [hmdef, e1, roundChannel, hkdef, add_assoc, Int.floor_int_add]
  have hfl : (k : ℚ) ≤ t + 1/2 := Int.floor_le _
  have hfu : t + 1/2 < k + 1 := Int.lt_floor_add_one _
  have heq : (m : ℚ) + (-a) * 255 = (m : ℚ) - t := by rw [htdef]; ring
  have e3 : lightenChannelVal (m : ℚ) (-a) = (m : ℚ) - t := by
    rw [lightenChannelVal, heq]
    apply min_eq_right
    calc (m : ℚ) - t = (m : ℚ) + (-a) * 255 := heq.symm
      _ ≤ 255 := h2
  have e5 : roundChannel ((m : ℚ) - t) = c + ⌊(k : ℚ) - t + 1/2⌋ := by
    rw [roundChannel, hm]
    push_cast
    rw [show (c : ℚ) + (k : ℚ) - t + 1/2 = (c : ℚ) + ((k : ℚ) - t + 1/2) by ring,
      Int.floor_int_add]
  have hbl : (0 : ℤ) ≤ ⌊(k : ℚ) - t + 1/2⌋ := by
    apply Int.le_floor.mpr
    push_cast
    linarith
  have hbu : ⌊(k : ℚ) - t + 1/2⌋ ≤ 1 := by
    apply Int.floor_le_iff.mpr
    push_cast
    linarith
  rw [e3, e5, add_sub_cancel_left]
  exact abs_le.mpr ⟨by omega, by omega⟩

/-- Witness for the amended C9 at channel `c = 128` (from `#808080`) and
`a = 1/10`: lighten gives `round(153.5) = 154`, darken gives back
`round(128.5) = 129`, within the ±1 tolerance. -/
theorem claim9_witness :
    ((128 : ℤ) : ℚ) + (1/10) * 255 ≤ 255 ∧
    (roundChannel (lightenChannelVal ((128 : ℤ) : ℚ) (1/10)) : ℚ) + (-(1/10)) * 255 ≤ 255 ∧
    |roundChannel (lightenChannelVal
        ((roundChannel (lightenChannelVal ((128 : ℤ) : ℚ) (1/10)) : ℤ) : ℚ) (-(1/10)))
      - (128 : ℤ)| ≤ 1 := by
  refine ⟨by norm_num, by with_unfolding_all decide, ?_⟩
  exact claim9_amended 128 (1/10) (by norm_num) (by with_unfolding_all decide)

/-- Claim C10: in every engine state reachable from construction through the
public operations and the event loop, `currentCommandIndex` never exceeds the
queue length (`totalCommands`): `completeCurrentCommand` increments the
cursor only while it is strictly below the length, so stray completion
callbacks after exhaustion never push it past the end. -/
theorem claim10_index_bounded (s : Engine) (h : Reachable s) :
    s.currentCommandIndex ≤ s.commandQueue.length := by
  induction h with
  | init => exact Nat.le_refl 0
  | load cmds _ _ => exact Nat.zero_le _
  | start _ ih =>
    unfold startExecution
    split
    · exact ih
    · rw [executeNextCommand_index, executeNextCommand_commandQueue]
      exact Nat.zero_le _
  | pause _ ih => exact ih
  | resume _ ih =>
    unfold resumeExecution
    rw [executeNextCommand_index, executeNextCommand_commandQueue]
    exact ih
  | stop _ ih => exact ih
  | @evstep s2 _ ih =>
    rw [step_queueLength]
    rcases step_index_cases s2 with h | h
    · omega
    · omega

/-- Witness for C10 at the initial engine state. -/
theorem claim10_witness :
    initEngine.currentCommandIndex ≤ initEngine.commandQueue.length :=
  claim10_index_bounded initEngine Reachable.init

end RobotViz
